import Mathlib

/-!
Verification of the unified data-access layer
(`src/backend/data/data_layer.py` of the databricks-unified-job-platform
repository): the circuit breaker, result cache, identifier translation,
warehouse fallback and the `execute_query` orchestrator.

Query text is modelled as `List Char`; Python `str.replace` (replace all
non-overlapping occurrences, scanning left to right) is modelled by
`replaceAll`.  Wall-clock time (`time.time()`) is an explicit `Nat`
parameter `now`, one per operation.  The two backend executors perform
network I/O; their outcomes are passed in as oracles (`CallOutcome`,
`PerfOutcome`), while every piece of pure logic of the Python module is
translated directly.
-/

namespace UnifiedDataLayer

abbrev Text := List Char

/-- The single-quote character, written via its code point. -/
def sq : Char := Char.ofNat 39

/-- Does `pat` occur as a contiguous substring of the text? -/
def textHas (pat : Text) : Text → Bool
  | [] => pat.isEmpty
  | c :: rest => pat.isPrefixOf (c :: rest) || textHas pat rest

/-- Fuel-indexed worker for `replaceAll`; `fuel ≥ length of the text`
makes the fuel bound irrelevant. -/
def replaceAllFuel (pat rep : Text) : Nat → Text → Text
  | _, [] => []
  | 0, s => s
  | fuel + 1, c :: rest =>
    if !pat.isEmpty && pat.isPrefixOf (c :: rest) then
      rep ++ replaceAllFuel pat rep fuel ((c :: rest).drop pat.length)
    else
      c :: replaceAllFuel pat rep fuel rest

/-- Python `s.replace(pat, rep)`: replace every non-overlapping occurrence
of `pat` in `s` with `rep`, scanning left to right.  (All patterns used by
the data layer are non-empty; for an empty pattern this model is the
identity.) -/
def replaceAll (pat rep s : Text) : Text := replaceAllFuel pat rep s.length s

/-- Number of occurrences of a character in a text. -/
def countChar (c : Char) : Text → Nat
  | [] => 0
  | d :: rest => (if d = c then 1 else 0) + countChar c rest

/-- `DataSource` enum of the module. -/
inductive DataSource
  | lakebase
  | warehouse
deriving DecidableEq, Repr

/-- The `QueryResult` dataclass. -/
structure QueryResult where
  columns : List Text
  data : List (List Text)
  source : DataSource
  execution_time_ms : Nat
  from_cache : Bool := false
deriving DecidableEq, Repr

/-- A Python parameter value as the warehouse executor observes it:
either a `str` (quoted on substitution) or any other value, carried by
its `str(value)` rendering. -/
inductive PValue
  | vstr (s : Text)
  | vother (rendered : Text)
deriving DecidableEq, Repr

/-- A params dict, in insertion order. -/
abbrev Params := List (Text × PValue)

/-- The parameter-inlining loop of `_execute_warehouse`: for each
`(key, value)`, replace every occurrence of `:key` in the query text by
`'value'` for strings and by `str(value)` otherwise. -/
def subst_params (query : Text) (params : Params) : Text :=
  params.foldl
    (fun q kv =>
      match kv.2 with
      | .vstr s => replaceAll (':' :: kv.1) (sq :: (s ++ [sq])) q
      | .vother r => replaceAll (':' :: kv.1) r q)
    query

/-- Terminal outcome of the remote statement-execution service used by
`_execute_warehouse`: either a succeeded statement with manifest columns,
a data array and the measured wall-clock latency, or a non-success
terminal state carrying the optional reported error message. -/
inductive WhResponse
  | succeeded (columns : List Text) (data : List (List Text)) (elapsed_ms : Nat)
  | failed (error : Option Text)
deriving DecidableEq, Repr

/-- Result of one executor invocation: a `QueryResult` or a raised error
message. -/
inductive ExecResult
  | ok (r : QueryResult)
  | fail (msg : Text)
deriving DecidableEq, Repr

/-- `UnifiedDataLayer._execute_warehouse`: inline the params into the
statement text, submit it to the remote service, and either build a
`QueryResult` tagged `source=WAREHOUSE` or raise
`RuntimeError("Query failed: <message>")` (message defaulting to
`Unknown error`). -/
def execute_warehouse (remote : Text → WhResponse) (query : Text) (params : Params) :
    ExecResult :=
  let stmt := subst_params query params
  match remote stmt with
  | .succeeded cols data ms =>
    .ok { columns := cols, data := data, source := .warehouse,
          execution_time_ms := ms, from_cache := false }
  | .failed err =>
    .fail ("Query failed: ".data ++ err.getD "Unknown error".data)

/-- The class-level `TABLE_MAPPINGS` dict, in source order. -/
def TABLE_MAPPINGS : List (Text × Text) :=
  [ ("system.lakeflow.jobs".data, "jobs_monitor.synced.jobs".data),
    ("system.lakeflow.job_run_timeline".data, "jobs_monitor.synced.job_run_timeline".data),
    ("system.lakeflow.job_task_run_timeline".data, "jobs_monitor.synced.job_task_run_timeline".data),
    ("system.billing.usage".data, "jobs_monitor.synced.billing_usage".data),
    ("system.billing.list_prices".data, "jobs_monitor.synced.list_prices".data),
    ("system.compute.clusters".data, "jobs_monitor.synced.clusters".data) ]

/-- The namespace pattern `f"{catalog}.{schema}."` replaced last. -/
def ns_pat (catalog schema : Text) : Text :=
  catalog ++ ('.' :: schema) ++ ['.']

/-- `UnifiedDataLayer._translate_query_for_lakebase`: replace each mapped
Unity Catalog table name, then the configured `catalog.schema.` namespace. -/
def translate_query_for_lakebase (catalog schema : Text) (query : Text) : Text :=
  let translated := TABLE_MAPPINGS.foldl (fun t m => replaceAll m.1 m.2 t) query
  replaceAll (ns_pat catalog schema) "jobs_monitor.cost_management.".data translated

/-- All literal patterns a translation run substitutes, in order. -/
def translationPats (catalog schema : Text) : List Text :=
  TABLE_MAPPINGS.map Prod.fst ++ [ns_pat catalog schema]

/-- The cache key.  The source fingerprints
`md5(query + str(params or ""))`; the hash is abstracted to its preimage,
the pair itself, which is the same deterministic function of query text
and params up to hash collisions. -/
abbrev CacheKey := Text × Params

def cache_key (query : Text) (params : Params) : CacheKey := (query, params)

/-- Mutable state of a `UnifiedDataLayer` instance: the `_lakebase_available`
init flag, the `_cache` dict (key, result, insertion timestamp), the
circuit-breaker fields, and the configuration fields. -/
structure DLState where
  lakebase_up : Bool
  cache : List (CacheKey × QueryResult × Nat)
  lakebase_failures : Nat
  lakebase_last_failure : Nat
  circuit_open : Bool
  circuit_open_time : Nat
  failure_threshold : Nat
  circuit_reset_timeout : Nat
  cache_ttl : Nat
  catalog : Text
  schema : Text
deriving DecidableEq, Repr

/-- `__init__`: failure threshold 3, reset timeout 60 s, empty cache,
closed circuit; `lakebase_up` records whether `_init_lakebase` succeeded. -/
def initState (catalog schema : Text) (cache_ttl : Nat) (lakebase_up : Bool) : DLState :=
  { lakebase_up := lakebase_up, cache := [], lakebase_failures := 0,
    lakebase_last_failure := 0, circuit_open := false, circuit_open_time := 0,
    failure_threshold := 3, circuit_reset_timeout := 60, cache_ttl := cache_ttl,
    catalog := catalog, schema := schema }

/-- The `lakebase_available` property.  Reading it has a side effect: when
the circuit is open and more than `circuit_reset_timeout` has elapsed since
it opened, the breaker closes and the failure counter resets.  Returns the
availability verdict together with the (possibly updated) state. -/
def lakebase_available (s : DLState) (now : Nat) : Bool × DLState :=
  if !s.lakebase_up then (false, s)
  else if s.circuit_open then
    if s.circuit_reset_timeout < now - s.circuit_open_time then
      (true, { s with circuit_open := false, lakebase_failures := 0 })
    else (false, s)
  else (true, s)

/-- `_record_lakebase_failure`: bump the counter, stamp the failure time,
and open the circuit once the counter reaches the threshold. -/
def record_lakebase_failure (s : DLState) (now : Nat) : DLState :=
  let s1 := { s with lakebase_failures := s.lakebase_failures + 1,
                     lakebase_last_failure := now }
  if s1.failure_threshold ≤ s1.lakebase_failures then
    { s1 with circuit_open := true, circuit_open_time := now }
  else s1

def cacheLookup (cache : List (CacheKey × QueryResult × Nat)) (k : CacheKey) :
    Option (QueryResult × Nat) :=
  match cache with
  | [] => none
  | (k', v) :: rest => if k' = k then some v else cacheLookup rest k

def cacheErase (cache : List (CacheKey × QueryResult × Nat)) (k : CacheKey) :
    List (CacheKey × QueryResult × Nat) :=
  cache.filter (fun e => decide (e.1 ≠ k))

/-- Python dict assignment: rebind the key (position in the association
list is irrelevant to `cacheLookup`). -/
def cacheInsert (cache : List (CacheKey × QueryResult × Nat)) (k : CacheKey)
    (v : QueryResult × Nat) : List (CacheKey × QueryResult × Nat) :=
  (k, v) :: cacheErase cache k

/-- `_get_cached`: on a fresh entry, set `from_cache` on the stored result
object (the dict holds a reference to the same object, so the store is
updated too) and return it; on a stale entry, delete it and miss. -/
def get_cached (s : DLState) (k : CacheKey) (now : Nat) :
    Option QueryResult × DLState :=
  match cacheLookup s.cache k with
  | some (r, ts) =>
    if now - ts < s.cache_ttl then
      let r' := { r with from_cache := true }
      (some r', { s with cache := cacheInsert s.cache k (r', ts) })
    else
      (none, { s with cache := cacheErase s.cache k })
  | none => (none, s)

/-- `_set_cache`. -/
def set_cache (s : DLState) (k : CacheKey) (r : QueryResult) (now : Nat) : DLState :=
  { s with cache := cacheInsert s.cache k (r, now) }

/-- `clear_cache`. -/
def clear_cache (s : DLState) : DLState := { s with cache := [] }

/-- External outcomes for one `execute_query` call: what
`_execute_lakebase` would produce if invoked, and the remote warehouse
statement-execution service. -/
structure CallOutcome where
  primary : ExecResult
  remote : Text → WhResponse

/-- Observable outcome of one `execute_query` call: the returned result or
raised error, the successor state, and whether the primary (Lakebase)
executor was invoked. -/
structure CallResult where
  result : ExecResult
  state : DLState
  primary_attempted : Bool

/-- The shared tail of `execute_query`: run the warehouse executor, cache
a success when `use_cache`, propagate a failure unchanged. -/
def warehouseStep (s : DLState) (now : Nat) (k : CacheKey) (query : Text)
    (params : Params) (use_cache : Bool) (oc : CallOutcome) (att : Bool) : CallResult :=
  match execute_warehouse oc.remote query params with
  | .ok r =>
    { result := .ok r,
      state := if use_cache then set_cache s k r now else s,
      primary_attempted := att }
  | .fail m => { result := .fail m, state := s, primary_attempted := att }

/-- `UnifiedDataLayer.execute_query`: consult the cache, then — when
preferred and available — try Lakebase, caching a success or recording a
breaker failure; finally fall back to the SQL warehouse. -/
def execute_query (s : DLState) (now : Nat) (query : Text) (params : Params)
    (use_cache : Bool) (prefer_lakebase : Bool) (oc : CallOutcome) : CallResult :=
  let k := cache_key query params
  let c0 := if use_cache then get_cached s k now else (none, s)
  match c0.1 with
  | some r => { result := .ok r, state := c0.2, primary_attempted := false }
  | none =>
    let a := if prefer_lakebase then lakebase_available c0.2 now else (false, c0.2)
    if prefer_lakebase && a.1 then
      match oc.primary with
      | .ok r =>
        { result := .ok r,
          state := if use_cache then set_cache a.2 k r now else a.2,
          primary_attempted := true }
      | .fail _ =>
        warehouseStep (record_lakebase_failure a.2 now) now k query params use_cache oc true
    else
      warehouseStep a.2 now k query params use_cache oc false

/-- The fixed diagnostic query of `get_performance_comparison`. -/
def test_query : Text :=
  "SELECT COUNT(*) as cnt FROM system.lakeflow.jobs WHERE delete_time IS NULL".data

/-- Status dict stored under `results["warehouse"]` / `results["lakebase"]`. -/
inductive ProbeStatus
  | success (execution_time_ms : Nat)
  | error (msg : Text)
deriving DecidableEq, Repr

/-- External outcomes for one `get_performance_comparison` call. -/
structure PerfOutcome where
  remote : Text → WhResponse
  lakebase : ExecResult

/-- The returned comparison dict; `speedup_defined` records whether
`speedup_factor` was computed (its float value is not modelled). -/
structure PerfReport where
  warehouse : Option ProbeStatus
  lakebase : Option ProbeStatus
  speedup_defined : Bool
deriving DecidableEq, Repr

/-- `get_performance_comparison`: probe the warehouse directly, then probe
Lakebase only if the `lakebase_available` property (with its reset side
effect) reports it available; compute the speedup only when both probes
succeeded and the Lakebase time is positive. -/
def get_performance_comparison (s : DLState) (now : Nat) (po : PerfOutcome) :
    PerfReport × DLState :=
  let wh : ProbeStatus :=
    match execute_warehouse po.remote test_query [] with
    | .ok r => .success r.execution_time_ms
    | .fail m => .error m
  let a := lakebase_available s now
  let lb : Option ProbeStatus :=
    if a.1 then
      match po.lakebase with
      | .ok r => some (.success r.execution_time_ms)
      | .fail m => some (.error m)
    else none
  let sp : Bool :=
    match wh, lb with
    | .success _, some (.success lt) => decide (0 < lt)
    | _, _ => false
  ({ warehouse := some wh, lakebase := lb, speedup_defined := sp }, a.2)

/-- States reachable by an orchestrator instance: freshly constructed, or
obtained from a reachable state by letting time pass or running any of the
state-mutating operations. -/
inductive Reachable : DLState → Nat → Prop
  | init (catalog schema : Text) (ttl : Nat) (up : Bool) (t : Nat) :
      Reachable (initState catalog schema ttl up) t
  | tick {s : DLState} {n m : Nat} : Reachable s n → n ≤ m → Reachable s m
  | query {s : DLState} {n : Nat} (q : Text) (p : Params) (uc pl : Bool)
      (oc : CallOutcome) :
      Reachable s n → Reachable (execute_query s n q p uc pl oc).state n
  | perf {s : DLState} {n : Nat} (po : PerfOutcome) :
      Reachable s n → Reachable (get_performance_comparison s n po).2 n
  | cacheCleared {s : DLState} {n : Nat} :
      Reachable s n → Reachable (clear_cache s) n

/-! Concrete instances used by witnesses and counterexamples. -/

/-- The default `catalog` configuration value. -/
def cat0 : Text := "hls_amer_catalog".data

/-- The default `schema` configuration value. -/
def sch0 : Text := "cost_management".data

/-- A freshly constructed instance with Lakebase initialized. -/
def sInit : DLState := initState "c".data "s".data 300 true

/-- An always-failing Lakebase executor with a succeeding warehouse. -/
def ocFailC : CallOutcome :=
  { primary := .fail "connection refused".data,
    remote := fun _ => .succeeded ["cnt".data] [["1".data]] 7 }

def qrLB : QueryResult :=
  { columns := ["cnt".data], data := [["1".data]], source := .lakebase,
    execution_time_ms := 2, from_cache := false }

/-- A succeeding Lakebase executor with a succeeding warehouse. -/
def ocOkC : CallOutcome :=
  { primary := .ok qrLB,
    remote := fun _ => .succeeded ["cnt".data] [["1".data]] 7 }

def qc : Text := "SELECT 1".data

/-- Three consecutive primary failures at time 0, opening the circuit. -/
def sA1 : DLState := (execute_query sInit 0 qc [] false true ocFailC).state

def sA2 : DLState := (execute_query sA1 0 qc [] false true ocFailC).state

def sA3 : DLState := (execute_query sA2 0 qc [] false true ocFailC).state

/-- Failure, failure, success, failure, failure — all at time 0. -/
def sB3 : DLState := (execute_query sA2 0 qc [] false true ocOkC).state

def sB4 : DLState := (execute_query sB3 0 qc [] false true ocFailC).state

def sB5 : DLState := (execute_query sB4 0 qc [] false true ocFailC).state

/-- Probe outcomes in which both backends would answer if consulted. -/
def poC : PerfOutcome :=
  { remote := fun _ => .succeeded ["cnt".data] [["9".data]] 40,
    lakebase := .ok qrLB }

/-- A cached warehouse result inserted at time 0. -/
def rc : QueryResult :=
  { columns := ["cnt".data], data := [["1".data]], source := .warehouse,
    execution_time_ms := 5, from_cache := false }

def rcTrue : QueryResult := { rc with from_cache := true }

def kC : CacheKey := cache_key qc []

/-- An instance whose cache holds `rc` under `kC` since time 0 (ttl 300). -/
def sCache : DLState := { sInit with cache := [(kC, rc, 0)] }

/-- The adversarial query of the translation counterexample: replacing
`system.billing.usage` splices a new occurrence of
`system.lakeflow.jobs` into the translated text. -/
def qAdv : Text := "system.lakeflow.system.billing.usage".data

/-- A query whose translation contains no further translatable pattern. -/
def qGood : Text := "SELECT x FROM system.lakeflow.jobs".data

/-- A parameterized query with one string placeholder. -/
def qQuote : Text := "SELECT x FROM t WHERE n = :name".data

/-- A string parameter value containing a single-quote character. -/
def obrien : Text := "O".data ++ sq :: "Brien".data

/-- A parameterized query with one non-string placeholder. -/
def qId : Text := "SELECT x FROM t WHERE id = :id".data

/-! Helper lemmas. -/

theorem replaceAllFuel_of_not_has (pat rep : Text) :
    ∀ (fuel : Nat) (s : Text), s.length ≤ fuel → textHas pat s = false →
      replaceAllFuel pat rep fuel s = s := by
  intro fuel
  induction fuel with
  | zero =>
    intro s hl _
    cases s with
    | nil => rfl
    | cons c rest => simp at hl
  | succ n ih =>
    intro s hl hh
    cases s with
    | nil => rfl
    | cons c rest =>
      rw [textHas] at hh
      rcases Bool.or_eq_false_iff.mp hh with ⟨hp, hrest⟩
      rw [replaceAllFuel, hp, Bool.and_false, if_neg (by simp)]
      have : rest.length ≤ n := by simpa using hl
      rw [ih rest this hrest]

/-- A replacement whose pattern does not occur is the identity. -/
theorem replaceAll_of_not_has (pat rep s : Text) (hh : textHas pat s = false) :
    replaceAll pat rep s = s :=
  replaceAllFuel_of_not_has pat rep s.length s le_rfl hh

theorem cacheLookup_cacheErase (cache : List (CacheKey × QueryResult × Nat))
    (k : CacheKey) : cacheLookup (cacheErase cache k) k = none := by
  induction cache with
  | nil => rfl
  | cons e rest ih =>
    by_cases h : e.1 = k
    · simp [cacheErase, List.filter_cons, h] at ih ⊢
      simpa [cacheErase] using ih
    · simp [cacheErase, List.filter_cons, h] at ih ⊢
      simpa [cacheLookup, h, cacheErase] using ih

theorem warehouseStep_result (s : DLState) (now : Nat) (k : CacheKey) (q : Text)
    (p : Params) (uc : Bool) (oc : CallOutcome) (att : Bool) :
    (warehouseStep s now k q p uc oc att).result = execute_warehouse oc.remote q p := by
  unfold warehouseStep
  cases hw : execute_warehouse oc.remote q p <;> simp [hw]

theorem warehouseStep_attempted (s : DLState) (now : Nat) (k : CacheKey) (q : Text)
    (p : Params) (uc : Bool) (oc : CallOutcome) (att : Bool) :
    (warehouseStep s now k q p uc oc att).primary_attempted = att := by
  unfold warehouseStep
  cases hw : execute_warehouse oc.remote q p <;> simp [hw]

theorem warehouseStep_state_nocache (s : DLState) (now : Nat) (k : CacheKey)
    (q : Text) (p : Params) (oc : CallOutcome) (att : Bool) :
    (warehouseStep s now k q p false oc att).state = s := by
  unfold warehouseStep
  cases hw : execute_warehouse oc.remote q p <;> simp [hw]

/-- `warehouseStep` can only touch the cache field. -/
theorem warehouseStep_state_eq (s : DLState) (now : Nat) (k : CacheKey) (q : Text)
    (p : Params) (uc : Bool) (oc : CallOutcome) (att : Bool) :
    (warehouseStep s now k q p uc oc att).state
      = { s with cache := (warehouseStep s now k q p uc oc att).state.cache } := by
  unfold warehouseStep
  cases hw : execute_warehouse oc.remote q p <;> cases uc <;> simp [set_cache]

/-- `_get_cached` can only touch the cache field. -/
theorem get_cached_state_eq (s : DLState) (k : CacheKey) (now : Nat) :
    (get_cached s k now).2 = { s with cache := (get_cached s k now).2.cache } := by
  unfold get_cached
  cases hl : cacheLookup s.cache k with
  | none => rfl
  | some v =>
    obtain ⟨r, ts⟩ := v
    dsimp only
    split <;> rfl

/-- On a cache miss with a failing (or skipped) primary, `execute_query`
returns exactly what the warehouse executor produces. -/
theorem execute_query_fallback_result (s : DLState) (now : Nat) (q : Text)
    (p : Params) (uc pl : Bool) (oc : CallOutcome) (e : Text)
    (hm : cacheLookup s.cache (cache_key q p) = none)
    (hp : oc.primary = .fail e) :
    (execute_query s now q p uc pl oc).result = execute_warehouse oc.remote q p := by
  unfold execute_query
  cases uc <;> cases pl <;>
    simp only [get_cached, hm, Bool.false_and, Bool.true_and, if_true, if_false,
      Bool.false_eq_true, ite_true, ite_false] <;>
    [skip; skip; skip; skip] <;>
    first
    | exact warehouseStep_result ..
    | (cases ha : (lakebase_available s now).1 <;>
        simp only [ha, hp, if_true, if_false, Bool.false_eq_true, ite_true, ite_false] <;>
        exact warehouseStep_result ..)

/-- A cache-free preferred call under a closed breaker with a failing
primary: the primary is attempted and the breaker records one failure. -/
theorem execute_query_fail_closed (s : DLState) (now : Nat) (q : Text) (p : Params)
    (oc : CallOutcome) (e : Text)
    (hup : s.lakebase_up = true) (hopen : s.circuit_open = false)
    (hp : oc.primary = .fail e) :
    (execute_query s now q p false true oc).state = record_lakebase_failure s now ∧
    (execute_query s now q p false true oc).primary_attempted = true := by
  unfold execute_query
  simp only [if_false, ite_false, Bool.false_eq_true]
  have ha : lakebase_available s now = (true, s) := by
    unfold lakebase_available
    rw [hup, hopen]
    simp
  simp only [ite_true, ha, hp, Bool.and_self]
  exact ⟨warehouseStep_state_nocache .., warehouseStep_attempted ..⟩

/-- While the breaker is open and the reset timeout has not elapsed, a call
never invokes the primary executor and leaves every non-cache field
unchanged. -/
theorem execute_query_skip (s : DLState) (now : Nat) (q : Text) (p : Params)
    (uc pl : Bool) (oc : CallOutcome)
    (hopen : s.circuit_open = true)
    (ht : now - s.circuit_open_time ≤ s.circuit_reset_timeout) :
    (execute_query s now q p uc pl oc).primary_attempted = false ∧
    (execute_query s now q p uc pl oc).state
      = { s with cache := (execute_query s now q p uc pl oc).state.cache } := by
  have hnr : ¬ (s.circuit_reset_timeout < now - s.circuit_open_time) := Nat.not_lt.mpr ht
  have havail : ∀ s' : DLState, s' = { s with cache := s'.cache } →
      lakebase_available s' now = (false, s') := by
    intro s' hs'
    unfold lakebase_available
    rw [hs']
    cases hu : s.lakebase_up <;> simp [hopen, hnr]
  unfold execute_query
  cases uc with
  | false =>
    cases pl with
    | false =>
      simp only [if_false, ite_false, Bool.false_eq_true, Bool.false_and]
      refine ⟨warehouseStep_attempted .., ?_⟩
      have := warehouseStep_state_eq s now (cache_key q p) q p false oc false
      simpa using this
    | true =>
      simp only [if_false, ite_false, ite_true, Bool.false_eq_true]
      rw [havail s rfl]
      simp only [Bool.and_false]
      refine ⟨warehouseStep_attempted .., ?_⟩
      have := warehouseStep_state_eq s now (cache_key q p) q p false oc false
      simpa using this
  | true =>
    simp only [ite_true]
    cases hc : (get_cached s (cache_key q p) now).1 with
    | some r =>
      exact ⟨rfl, get_cached_state_eq ..⟩
    | none =>
      have hgc := get_cached_state_eq s (cache_key q p) now
      cases pl with
      | false =>
        simp only [ite_false, Bool.false_eq_true, Bool.false_and, if_false]
        refine ⟨warehouseStep_attempted .., ?_⟩
        have hw := warehouseStep_state_eq (get_cached s (cache_key q p) now).2 now
          (cache_key q p) q p true oc false
        rw [hw, hgc]
      | true =>
        simp only [ite_true]
        rw [havail _ hgc]
        simp only [Bool.and_false, Bool.false_eq_true, if_false]
        refine ⟨warehouseStep_attempted .., ?_⟩
        have hw := warehouseStep_state_eq (get_cached s (cache_key q p) now).2 now
          (cache_key q p) q p true oc false
        rw [hw, hgc]

/-- On a cache miss with the availability check passing, a preferred call
always invokes the primary executor. -/
theorem execute_query_attempts (s : DLState) (now : Nat) (q : Text) (p : Params)
    (uc : Bool) (oc : CallOutcome)
    (hm : cacheLookup s.cache (cache_key q p) = none)
    (ha : (lakebase_available s now).1 = true) :
    (execute_query s now q p uc true oc).primary_attempted = true := by
  unfold execute_query
  cases uc <;>
    simp only [get_cached, hm, ite_true, ite_false, Bool.true_and, ha] <;>
    cases hp : oc.primary <;>
    simp [hp, ha, warehouseStep_attempted]

/-- A successful primary execution under a closed breaker leaves the
failure counter and the breaker flag untouched. -/
theorem execute_query_success_closed (s : DLState) (now : Nat) (q : Text) (p : Params)
    (uc : Bool) (oc : CallOutcome) (r : QueryResult)
    (hm : cacheLookup s.cache (cache_key q p) = none)
    (hup : s.lakebase_up = true) (hopen : s.circuit_open = false)
    (hp : oc.primary = .ok r) :
    (execute_query s now q p uc true oc).result = .ok r ∧
    (execute_query s now q p uc true oc).state.lakebase_failures = s.lakebase_failures ∧
    (execute_query s now q p uc true oc).state.circuit_open = false := by
  have ha : lakebase_available s now = (true, s) := by
    unfold lakebase_available
    rw [hup, hopen]
    simp
  unfold execute_query
  cases uc <;>
    simp [get_cached, hm, ha, hp, set_cache, hopen]

/-- The breaker invariant the code actually maintains: the open flag
tracks the failure counter exactly (given a positive threshold). -/
def BreakerInv (s : DLState) : Prop :=
  1 ≤ s.failure_threshold ∧
    (s.circuit_open = true ↔ s.failure_threshold ≤ s.lakebase_failures)

theorem breakerInv_lakebase_available (s : DLState) (now : Nat)
    (h : BreakerInv s) : BreakerInv (lakebase_available s now).2 := by
  have h1 := h.1
  unfold lakebase_available
  split
  · exact h
  · split
    · split
      · refine ⟨h1, ?_⟩
        dsimp only
        constructor
        · intro hf
          exact absurd hf (by simp)
        · intro hle
          exact absurd hle (by omega)
      · exact h
    · exact h

theorem breakerInv_record (s : DLState) (now : Nat) (h : BreakerInv s) :
    BreakerInv (record_lakebase_failure s now) := by
  obtain ⟨h1, h2⟩ := h
  unfold record_lakebase_failure
  dsimp only
  split
  · next hth => exact ⟨h1, by simpa using hth⟩
  · next hth =>
    refine ⟨h1, ?_⟩
    dsimp only
    constructor
    · intro ho
      exact Nat.le_succ_of_le (h2.mp ho)
    · intro hle
      exact absurd hle (by simpa using hth)

/-- Invariant preservation through the warehouse fallback tail. -/
theorem breakerInv_warehouseStep (s : DLState) (now : Nat) (k : CacheKey)
    (q : Text) (p : Params) (uc : Bool) (oc : CallOutcome) (att : Bool)
    (h : BreakerInv s) : BreakerInv (warehouseStep s now k q p uc oc att).state := by
  rw [warehouseStep_state_eq]
  exact h

theorem breakerInv_execute_query (s : DLState) (now : Nat) (q : Text) (p : Params)
    (uc pl : Bool) (oc : CallOutcome) (h : BreakerInv s) :
    BreakerInv (execute_query s now q p uc pl oc).state := by
  have hgc : BreakerInv (get_cached s (cache_key q p) now).2 := by
    rw [get_cached_state_eq]
    exact h
  unfold execute_query
  cases uc with
  | false =>
    cases pl with
    | false =>
      simp only [ite_false, Bool.false_eq_true, Bool.false_and, if_false]
      exact breakerInv_warehouseStep _ now _ q p false oc false h
    | true =>
      simp only [ite_false, ite_true, Bool.false_eq_true, Bool.true_and]
      have ha := breakerInv_lakebase_available s now h
      cases hav : (lakebase_available s now).1 with
      | false =>
        simp only [hav, Bool.and_false, Bool.false_eq_true, if_false]
        exact breakerInv_warehouseStep _ now _ q p false oc false ha
      | true =>
        simp only [hav, Bool.and_true, if_true]
        cases hp : oc.primary with
        | ok r => exact ha
        | fail m =>
          exact breakerInv_warehouseStep _ now _ q p false oc true (breakerInv_record _ now ha)
  | true =>
    simp only [ite_true]
    cases hc : (get_cached s (cache_key q p) now).1 with
    | some r => exact hgc
    | none =>
      cases pl with
      | false =>
        simp only [ite_false, Bool.false_eq_true, Bool.false_and, if_false]
        exact breakerInv_warehouseStep _ now _ q p true oc false hgc
      | true =>
        simp only [ite_true, Bool.true_and]
        have ha := breakerInv_lakebase_available (get_cached s (cache_key q p) now).2 now hgc
        cases hav : (lakebase_available (get_cached s (cache_key q p) now).2 now).1 with
        | false =>
          simp only [hav, Bool.false_eq_true, if_false]
          exact breakerInv_warehouseStep _ now _ q p true oc false ha
        | true =>
          simp only [hav, if_true]
          cases hp : oc.primary with
          | ok r =>
            simp only [ite_true]
            unfold set_cache
            exact ha
          | fail m =>
            exact breakerInv_warehouseStep _ now _ q p true oc true (breakerInv_record _ now ha)

theorem breakerInv_perf (s : DLState) (now : Nat) (po : PerfOutcome)
    (h : BreakerInv s) : BreakerInv (get_performance_comparison s now po).2 :=
  breakerInv_lakebase_available s now h

theorem breakerInv_reachable {s : DLState} {n : Nat} (h : Reachable s n) :
    BreakerInv s := by
  induction h with
  | init catalog schema ttl up t =>
    exact ⟨by simp only [initState]; omega, by simp [initState]⟩
  | tick _ _ ih => exact ih
  | query q p uc pl oc _ ih => exact breakerInv_execute_query _ _ q p uc pl oc ih
  | perf po _ ih => exact breakerInv_perf _ _ po ih
  | cacheCleared _ ih => exact ih

/-- Recording a failure below the threshold only bumps the counter. -/
theorem record_below (s : DLState) (now : Nat)
    (h : ¬ s.failure_threshold ≤ s.lakebase_failures + 1) :
    record_lakebase_failure s now
      = { s with lakebase_failures := s.lakebase_failures + 1,
                 lakebase_last_failure := now } := by
  unfold record_lakebase_failure
  dsimp only
  rw [if_neg h]

/-- Recording the threshold-reaching failure opens the circuit, stamping
the opening time. -/
theorem record_hit (s : DLState) (now : Nat)
    (h : s.failure_threshold ≤ s.lakebase_failures + 1) :
    record_lakebase_failure s now
      = { s with lakebase_failures := s.lakebase_failures + 1,
                 lakebase_last_failure := now,
                 circuit_open := true, circuit_open_time := now } := by
  unfold record_lakebase_failure
  dsimp only
  rw [if_pos h]

/-! Claim theorems. -/

/-- C1: on a call that is not served from cache, if the primary (Lakebase)
executor raises on every attempt and the fallback (warehouse) executor
succeeds, `execute_query` returns that fallback result with
`source = WAREHOUSE` and does not raise; the primary's error is never
surfaced to the caller (the outcome does not depend on it). -/
theorem c1_failover_returns_fallback (s : DLState) (now : Nat) (q : Text)
    (p : Params) (uc pl : Bool) (e : Text) (cols : List Text)
    (data : List (List Text)) (ms : Nat)
    (hm : cacheLookup s.cache (cache_key q p) = none) :
    (execute_query s now q p uc pl
        { primary := .fail e, remote := fun _ => .succeeded cols data ms }).result
      = .ok { columns := cols, data := data, source := .warehouse,
              execution_time_ms := ms, from_cache := false } := by
  rw [execute_query_fallback_result s now q p uc pl _ e hm rfl]
  rfl

theorem c1_failover_returns_fallback_witness :
    (execute_query sInit 0 qc [] true true
        { primary := .fail "down".data,
          remote := fun _ => .succeeded ["cnt".data] [["1".data]] 7 }).result
      = .ok { columns := ["cnt".data], data := [["1".data]], source := .warehouse,
              execution_time_ms := 7, from_cache := false } :=
  c1_failover_returns_fallback sInit 0 qc [] true true "down".data
    ["cnt".data] [["1".data]] 7 rfl

/-- C2 is false on the code: a successful primary execution does not reset
the failure counter.  After failure, failure, success the counter is 2
(not 0), and after failure, failure, success, failure, failure the circuit
is open (the claim says it stays closed with threshold 3). -/
theorem c2_counterexample :
    sB3.lakebase_failures = 2 ∧ sB5.circuit_open = true ∧
    ¬ (sB3.lakebase_failures = 0 ∧ sB5.circuit_open = false) := by
  refine ⟨by decide, by decide, by decide⟩

/-- C2 amended: a successful primary execution under a closed breaker
leaves the consecutive-failure counter unchanged (it is reset only by the
reset-timeout path of the availability check), and the circuit stays
closed; failures therefore accumulate across interleaved successes. -/
theorem c2_amended_success_keeps_counter (s : DLState) (now : Nat) (q : Text)
    (p : Params) (uc : Bool) (oc : CallOutcome) (r : QueryResult)
    (hm : cacheLookup s.cache (cache_key q p) = none)
    (hup : s.lakebase_up = true) (hopen : s.circuit_open = false)
    (hp : oc.primary = .ok r) :
    (execute_query s now q p uc true oc).result = .ok r ∧
    (execute_query s now q p uc true oc).state.lakebase_failures = s.lakebase_failures ∧
    (execute_query s now q p uc true oc).state.circuit_open = false :=
  execute_query_success_closed s now q p uc oc r hm hup hopen hp

theorem c2_amended_success_keeps_counter_witness :
    (execute_query sInit 0 qc [] true true ocOkC).result = .ok qrLB ∧
    (execute_query sInit 0 qc [] true true ocOkC).state.lakebase_failures
      = sInit.lakebase_failures ∧
    (execute_query sInit 0 qc [] true true ocOkC).state.circuit_open = false :=
  c2_amended_success_keeps_counter sInit 0 qc [] true ocOkC qrLB rfl rfl rfl rfl

/-- C7: on a call that is not served from cache, when the primary executor
fails (or is skipped) and the warehouse response is a non-success state
with message `m`, `execute_query` raises `Query failed: m` — the message
originates from the fallback failure and is independent of the primary's
error. -/
theorem c7_total_failure_message (s : DLState) (now : Nat) (q : Text)
    (p : Params) (uc pl : Bool) (e m : Text)
    (hm : cacheLookup s.cache (cache_key q p) = none) :
    (execute_query s now q p uc pl
        { primary := .fail e, remote := fun _ => .failed (some m) }).result
      = .fail ("Query failed: ".data ++ m) := by
  rw [execute_query_fallback_result s now q p uc pl _ e hm rfl]
  rfl

theorem c7_total_failure_message_witness :
    (execute_query sInit 0 qc [] true true
        { primary := .fail "primary boom".data,
          remote := fun _ => .failed (some "TABLE_OR_VIEW_NOT_FOUND".data) }).result
      = .fail ("Query failed: ".data ++ "TABLE_OR_VIEW_NOT_FOUND".data) :=
  c7_total_failure_message sInit 0 qc [] true true "primary boom".data
    "TABLE_OR_VIEW_NOT_FOUND".data rfl

/-- C3: starting from a healthy instance (circuit closed, zero failures,
threshold 3), three consecutive calls whose primary executor fails each
attempt the primary; the third opens the circuit at its call time, and any
subsequent call issued before the reset timeout has elapsed never invokes
the primary executor and leaves the breaker open with the same opening
time. -/
theorem c3_threshold_opens_and_skips (s0 : DLState) (t1 t2 t3 t4 : Nat)
    (q1 q2 q3 q4 : Text) (p1 p2 p3 p4 : Params) (uc4 pl4 : Bool)
    (oc1 oc2 oc3 oc4 : CallOutcome) (e1 e2 e3 : Text)
    (hup : s0.lakebase_up = true) (hopen : s0.circuit_open = false)
    (hf : s0.lakebase_failures = 0) (hth : s0.failure_threshold = 3)
    (h1 : oc1.primary = .fail e1) (h2 : oc2.primary = .fail e2)
    (h3 : oc3.primary = .fail e3)
    (s1 s2 s3 : DLState)
    (hs1 : s1 = (execute_query s0 t1 q1 p1 false true oc1).state)
    (hs2 : s2 = (execute_query s1 t2 q2 p2 false true oc2).state)
    (hs3 : s3 = (execute_query s2 t3 q3 p3 false true oc3).state)
    (ht4 : t4 - t3 < s0.circuit_reset_timeout) :
    (execute_query s0 t1 q1 p1 false true oc1).primary_attempted = true ∧
    (execute_query s1 t2 q2 p2 false true oc2).primary_attempted = true ∧
    (execute_query s2 t3 q3 p3 false true oc3).primary_attempted = true ∧
    s3.circuit_open = true ∧ s3.circuit_open_time = t3 ∧
    (execute_query s3 t4 q4 p4 uc4 pl4 oc4).primary_attempted = false ∧
    (execute_query s3 t4 q4 p4 uc4 pl4 oc4).state.circuit_open = true ∧
    (execute_query s3 t4 q4 p4 uc4 pl4 oc4).state.circuit_open_time = t3 ∧
    (execute_query s3 t4 q4 p4 uc4 pl4 oc4).state.circuit_reset_timeout
      = s0.circuit_reset_timeout := by
  have A1 := execute_query_fail_closed s0 t1 q1 p1 oc1 e1 hup hopen h1
  have hs1' : s1 = { s0 with lakebase_failures := 1, lakebase_last_failure := t1 } := by
    rw [hs1, A1.1, record_below s0 t1 (by omega)]
    simp [hf]
  have A2 := execute_query_fail_closed s1 t2 q2 p2 oc2 e2
    (by rw [hs1']; exact hup) (by rw [hs1']; exact hopen) h2
  have hs2' : s2 = { s0 with lakebase_failures := 2, lakebase_last_failure := t2 } := by
    rw [hs2, A2.1, hs1', record_below _ t2 (by dsimp only; omega)]
  have A3 := execute_query_fail_closed s2 t3 q3 p3 oc3 e3
    (by rw [hs2']; exact hup) (by rw [hs2']; exact hopen) h3
  have hs3' : s3 = { s0 with lakebase_failures := 3,
                             lakebase_last_failure := t3,
                             circuit_open := true,
                             circuit_open_time := t3 } := by
    rw [hs3, A3.1, hs2', record_hit _ t3 (by dsimp only; omega)]
  have hopen3 : s3.circuit_open = true := by rw [hs3']
  have htime3 : s3.circuit_open_time = t3 := by rw [hs3']
  have hto3 : s3.circuit_reset_timeout = s0.circuit_reset_timeout := by rw [hs3']
  have SK := execute_query_skip s3 t4 q4 p4 uc4 pl4 oc4 hopen3
    (by rw [htime3, hto3]; omega)
  refine ⟨A1.2, A2.2, A3.2, hopen3, htime3, SK.1, ?_, ?_, ?_⟩
  · rw [SK.2]
    exact hopen3
  · rw [SK.2]
    exact htime3
  · rw [SK.2]
    exact hto3

theorem c3_threshold_opens_and_skips_witness :
    (execute_query sInit 0 qc [] false true ocFailC).primary_attempted = true ∧
    (execute_query sA1 0 qc [] false true ocFailC).primary_attempted = true ∧
    (execute_query sA2 0 qc [] false true ocFailC).primary_attempted = true ∧
    sA3.circuit_open = true ∧ sA3.circuit_open_time = 0 ∧
    (execute_query sA3 59 qc [] false true ocFailC).primary_attempted = false ∧
    (execute_query sA3 59 qc [] false true ocFailC).state.circuit_open = true ∧
    (execute_query sA3 59 qc [] false true ocFailC).state.circuit_open_time = 0 ∧
    (execute_query sA3 59 qc [] false true ocFailC).state.circuit_reset_timeout
      = sInit.circuit_reset_timeout :=
  c3_threshold_opens_and_skips sInit 0 0 0 59 qc qc qc qc [] [] [] [] false true
    ocFailC ocFailC ocFailC ocFailC "connection refused".data
    "connection refused".data "connection refused".data
    rfl rfl rfl rfl rfl rfl rfl sA1 sA2 sA3 rfl rfl rfl (by decide)

/-- C4: when the circuit is open and more than the reset timeout has
elapsed since it opened, the first availability check reports available,
closes the circuit and zeroes the failure counter, and an `execute_query`
call at that moment (prefer primary, primary initialized, not served from
cache) invokes the primary executor. -/
theorem c4_reset_probes_primary (s : DLState) (now : Nat) (q : Text)
    (p : Params) (uc : Bool) (oc : CallOutcome)
    (hup : s.lakebase_up = true) (hopen : s.circuit_open = true)
    (ht : s.circuit_reset_timeout < now - s.circuit_open_time)
    (hm : cacheLookup s.cache (cache_key q p) = none) :
    (lakebase_available s now).1 = true ∧
    (lakebase_available s now).2.circuit_open = false ∧
    (lakebase_available s now).2.lakebase_failures = 0 ∧
    (execute_query s now q p uc true oc).primary_attempted = true := by
  have hav : lakebase_available s now
      = (true, { s with circuit_open := false, lakebase_failures := 0 }) := by
    unfold lakebase_available
    rw [hup, hopen]
    simp [ht]
  refine ⟨by rw [hav], by rw [hav], by rw [hav], ?_⟩
  exact execute_query_attempts s now q p uc oc hm (by rw [hav])

theorem c4_reset_probes_primary_witness :
    (lakebase_available sB4 61).1 = true ∧
    (lakebase_available sB4 61).2.circuit_open = false ∧
    (lakebase_available sB4 61).2.lakebase_failures = 0 ∧
    (execute_query sB4 61 qc [] true true ocOkC).primary_attempted = true :=
  c4_reset_probes_primary sB4 61 qc [] true ocOkC (by decide) (by decide)
    (by decide) (by decide)

/-- C5 is false on the code: in the reachable state obtained by three
primary failures at time 0 and then 100 seconds of inactivity, the
`is_open` flag is still true although the reset timeout (60 s) has
elapsed since the circuit opened — the flag is only cleared lazily by the
next availability check, so the claimed iff fails. -/
theorem c5_counterexample :
    Reachable sA3 100 ∧ sA3.circuit_open = true ∧
    ¬ (sA3.failure_threshold ≤ sA3.lakebase_failures ∧
       100 - sA3.circuit_open_time < sA3.circuit_reset_timeout) := by
  refine ⟨?_, by decide, by decide⟩
  have h0 : Reachable sInit 0 := Reachable.init "c".data "s".data 300 true 0
  have h1 : Reachable sA1 0 := Reachable.query qc [] false true ocFailC h0
  have h2 : Reachable sA2 0 := Reachable.query qc [] false true ocFailC h1
  have h3 : Reachable sA3 0 := Reachable.query qc [] false true ocFailC h2
  exact Reachable.tick h3 (by omega)

/-- C5 amended: in every reachable state the `is_open` flag is true iff
the failure counter has reached the failure threshold; the
reset-timeout condition is enforced only lazily, by the next
availability check, not as a state invariant. -/
theorem c5_amended_open_iff_threshold (s : DLState) (n : Nat)
    (h : Reachable s n) :
    s.circuit_open = true ↔ s.failure_threshold ≤ s.lakebase_failures :=
  (breakerInv_reachable h).2

theorem c5_amended_open_iff_threshold_witness :
    sA3.circuit_open = true ↔ sA3.failure_threshold ≤ sA3.lakebase_failures :=
  c5_amended_open_iff_threshold sA3 0
    (Reachable.query qc [] false true ocFailC
      (Reachable.query qc [] false true ocFailC
        (Reachable.query qc [] false true ocFailC
          (Reachable.init "c".data "s".data 300 true 0))))

/-- C6: for an entry inserted at time `ts`, a `get` strictly before
`ts + ttl` returns the stored result marked `from_cache = true`, and a
`get` at or after `ts + ttl` misses and deletes the entry — the cache
never returns an entry whose age has reached `ttl`. -/
theorem c6_cache_ttl (s : DLState) (k : CacheKey) (r : QueryResult)
    (ts now : Nat)
    (hl : cacheLookup s.cache k = some (r, ts)) (hts : ts ≤ now) :
    (now < ts + s.cache_ttl →
      (get_cached s k now).1 = some { r with from_cache := true }) ∧
    (ts + s.cache_ttl ≤ now →
      (get_cached s k now).1 = none ∧
      cacheLookup (get_cached s k now).2.cache k = none) := by
  unfold get_cached
  rw [hl]
  dsimp only
  constructor
  · intro hfresh
    rw [if_pos (by omega : now - ts < s.cache_ttl)]
  · intro hstale
    rw [if_neg (by omega : ¬ now - ts < s.cache_ttl)]
    exact ⟨rfl, cacheLookup_cacheErase s.cache k⟩

theorem c6_cache_ttl_witness :
    (get_cached sCache kC 10).1 = some rcTrue ∧
    ((get_cached sCache kC 300).1 = none ∧
      cacheLookup (get_cached sCache kC 300).2.cache kC = none) :=
  ⟨(c6_cache_ttl sCache kC rc 0 10 (by decide) (by decide)).1 (by decide),
   (c6_cache_ttl sCache kC rc 0 300 (by decide) (by decide)).2 (by decide)⟩

/-- C8 is false on the code: translation is not idempotent for every
query.  For `system.lakeflow.` immediately followed by
`system.billing.usage`, the first pass splices a new occurrence of
`system.lakeflow.jobs` into the text, which a second pass substitutes
again. -/
theorem c8_counterexample :
    translate_query_for_lakebase cat0 sch0 (translate_query_for_lakebase cat0 sch0 qAdv)
      ≠ translate_query_for_lakebase cat0 sch0 qAdv := by
  decide

/-- C8 amended: translation is idempotent for every query whose
once-translated text contains no mapped table identifier and no
configured `catalog.schema.` namespace pattern (in particular, whenever
no replacement splices a new pattern occurrence into the text); it can
substitute again otherwise. -/
theorem c8_amended_idempotent_without_residual_patterns
    (catalog schema q : Text)
    (h : ∀ pat ∈ translationPats catalog schema,
        textHas pat (translate_query_for_lakebase catalog schema q) = false) :
    translate_query_for_lakebase catalog schema
        (translate_query_for_lakebase catalog schema q)
      = translate_query_for_lakebase catalog schema q := by
  set t := translate_query_for_lakebase catalog schema q with hT
  have h1 := h "system.lakeflow.jobs".data (by simp [translationPats, TABLE_MAPPINGS])
  have h2 := h "system.lakeflow.job_run_timeline".data
    (by simp [translationPats, TABLE_MAPPINGS])
  have h3 := h "system.lakeflow.job_task_run_timeline".data
    (by simp [translationPats, TABLE_MAPPINGS])
  have h4 := h "system.billing.usage".data (by simp [translationPats, TABLE_MAPPINGS])
  have h5 := h "system.billing.list_prices".data
    (by simp [translationPats, TABLE_MAPPINGS])
  have h6 := h "system.compute.clusters".data
    (by simp [translationPats, TABLE_MAPPINGS])
  have h7 := h (ns_pat catalog schema) (by simp [translationPats, TABLE_MAPPINGS])
  show translate_query_for_lakebase catalog schema t = t
  unfold translate_query_for_lakebase
  simp only [TABLE_MAPPINGS, List.foldl]
  rw [replaceAll_of_not_has _ _ _ h1, replaceAll_of_not_has _ _ _ h2,
      replaceAll_of_not_has _ _ _ h3, replaceAll_of_not_has _ _ _ h4,
      replaceAll_of_not_has _ _ _ h5, replaceAll_of_not_has _ _ _ h6,
      replaceAll_of_not_has _ _ _ h7]

theorem c8_amended_idempotent_without_residual_patterns_witness :
    translate_query_for_lakebase cat0 sch0 (translate_query_for_lakebase cat0 sch0 qGood)
      = translate_query_for_lakebase cat0 sch0 qGood :=
  c8_amended_idempotent_without_residual_patterns cat0 sch0 qGood (by decide)

/-- C9 is false on the code: in a reachable state whose circuit is open
(and the reset timeout has not elapsed), `get_performance_comparison`
probes the warehouse but skips the Lakebase probe entirely — the primary
probe is guarded by `lakebase_available`, it does not bypass the
breaker — even though the Lakebase executor would have answered. -/
theorem c9_counterexample :
    Reachable sA3 10 ∧ sA3.circuit_open = true ∧
    (get_performance_comparison sA3 10 poC).1.warehouse ≠ none ∧
    (get_performance_comparison sA3 10 poC).1.lakebase = none := by
  refine ⟨?_, by decide, by decide, by decide⟩
  exact Reachable.tick
    (Reachable.query qc [] false true ocFailC
      (Reachable.query qc [] false true ocFailC
        (Reachable.query qc [] false true ocFailC
          (Reachable.init "c".data "s".data 300 true 0)))) (by omega)

/-- C9 amended: `get_performance_comparison` always probes the warehouse
directly, but its Lakebase probe is guarded by the availability check: it
is skipped while the circuit is open within the reset timeout, and runs
(for an initialized Lakebase) once more than the reset timeout has
elapsed, the check having closed the circuit. -/
theorem c9_amended_probe_guarded (s : DLState) (now : Nat) (po : PerfOutcome) :
    (get_performance_comparison s now po).1.warehouse ≠ none ∧
    (s.circuit_open = true → now - s.circuit_open_time ≤ s.circuit_reset_timeout →
      (get_performance_comparison s now po).1.lakebase = none) ∧
    (s.lakebase_up = true → s.circuit_open = true →
      s.circuit_reset_timeout < now - s.circuit_open_time →
      (get_performance_comparison s now po).1.lakebase ≠ none) := by
  refine ⟨?_, ?_, ?_⟩
  · unfold get_performance_comparison
    dsimp only
    cases execute_warehouse po.remote test_query [] <;> simp
  · intro hopen ht
    have hav : (lakebase_available s now).1 = false := by
      unfold lakebase_available
      rw [hopen]
      cases hu : s.lakebase_up <;> simp [Nat.not_lt.mpr ht]
    unfold get_performance_comparison
    dsimp only
    rw [hav]
    simp
  · intro hup hopen ht
    have hav : (lakebase_available s now).1 = true := by
      unfold lakebase_available
      rw [hup, hopen]
      simp [ht]
    unfold get_performance_comparison
    dsimp only
    rw [hav]
    cases po.lakebase <;> simp

theorem c9_amended_probe_guarded_witness :
    (get_performance_comparison sA3 10 poC).1.lakebase = none ∧
    (get_performance_comparison sA3 70 poC).1.lakebase ≠ none :=
  ⟨(c9_amended_probe_guarded sA3 10 poC).2.1 (by decide) (by decide),
   (c9_amended_probe_guarded sA3 70 poC).2.2 (by decide) (by decide) (by decide)⟩

/-- C10: the warehouse executor never passes parameters separately — its
behaviour on any params equals its behaviour on the pre-substituted text
with no params; substitution replaces every `:key` occurrence, wrapping
string values in single quotes with no escaping (so a value containing a
quote yields a statement with an odd number of quote characters, breaking
its quoting structure) and rendering non-string values bare. -/
theorem c10_warehouse_inlines_params :
    (∀ (remote : Text → WhResponse) (q : Text) (ps : Params),
        execute_warehouse remote q ps
          = execute_warehouse remote (subst_params q ps) []) ∧
    subst_params qQuote [("name".data, .vstr obrien)]
      = "SELECT x FROM t WHERE n = ".data ++ (sq :: obrien ++ [sq]) ∧
    countChar sq qQuote = 0 ∧
    countChar sq (subst_params qQuote [("name".data, .vstr obrien)]) = 3 ∧
    subst_params qId [("id".data, .vother "42".data)]
      = "SELECT x FROM t WHERE id = 42".data := by
  refine ⟨fun remote q ps => rfl, by decide, by decide, by decide, by decide⟩

end UnifiedDataLayer
